import Mathlib

/-!
Verification of the CyberDetector DDoS detection engine.

This file shallowly embeds the parts of the repository relevant to the
frozen claims:

* the feature extraction of `DDQNDetector.preprocess_traffic_data` and
  `DDoSDetector.preprocess_traffic_data` (traffic volume, protocol
  imbalance, Shannon entropy normalization);
* the attack-episode state machine inside `DDQNDetector.detect`
  (src/server/ml/ddqn/detector.py, lines 283-368) and its severity and
  attack-type estimators;
* the mitigation decision table `recommend_action`;
* the replay buffer (a `deque` with `maxlen`), the epsilon-greedy decay
  schedule of `DDQNAgent.replay` / `DDQNAgent.act`
  (src/server/analysis/ddqn.py), and the training-target computation of
  both `replay` implementations (src/server/analysis/ddqn.py and
  src/server/ml/ddqn/ddqn_model.py).

Python floats are modelled as exact rationals; values produced by the
transcendental `math.log2` are modelled as real numbers via `Real.logb`.
Timestamps (`datetime.now()` et al.) are modelled as rational numbers of
seconds, with subtraction of datetimes mapped to rational subtraction.
-/

namespace CyberDetector

/-- A packet-like record, as consumed by `preprocess_traffic_data`:
`{src_ip, dst_ip, protocol, tcp_flags, packet_size}`.  Packet sizes are
byte counts, hence naturals. -/
structure Packet where
  srcIp : String
  dstIp : String
  protocol : String
  tcpFlags : String
  packetSize : Nat
  deriving DecidableEq

/-- Sum of the packet sizes of a traffic window (`total_packet_size` in
`preprocess_traffic_data`). -/
def totalPacketSize (td : List Packet) : Nat :=
  (td.map Packet.packetSize).sum

/-- The `traffic_volume` feature
(src/server/ml/ddqn/detector.py line 165, src/server/network/analysis/
ddos_detector.py line 151):
`min(1.0, total_packet_size / 1000000) if total_packet_size > 0 else 0`. -/
def trafficVolume (td : List Packet) : ℚ :=
  if 0 < totalPacketSize td then
    min 1 ((totalPacketSize td : ℚ) / 1000000)
  else 0

/-- The protocol labels of a traffic window, in packet order
(`packet.get("protocol")` for each packet). -/
def protocolLabels (td : List Packet) : List String :=
  td.map Packet.protocol

/-- An 8-entry feature vector, in the order produced by
`preprocess_traffic_data`.  The `syn_ratio` field of the source is named
`synFrac` here.  Entries are rationals (entropy features are only ever
consumed, never recomputed, by the state machine modelled below). -/
structure Features where
  sourceEntropy : ℚ
  destinationEntropy : ℚ
  synFrac : ℚ
  trafficVol : ℚ
  packetRate : ℚ
  uniqueSrcCount : ℚ
  uniqueDstCount : ℚ
  protocolImbal : ℚ
  deriving DecidableEq

/-- Function `DDQNDetector._estimate_attack_severity`
(src/server/ml/ddqn/detector.py lines 401-422; identical in
src/server/network/analysis/ddos_detector.py lines 366-387).
Accumulates the weighted terms in source order and clamps above by 1. -/
def estimateAttackSeverity (f : Features) : ℚ :=
  min 1 (0 + f.trafficVol * 0.4 + f.packetRate * 0.3 + f.synFrac * 0.15
    + f.sourceEntropy * 0.1 + (1 - f.destinationEntropy) * 0.05)

/-- Function `DDQNDetector._estimate_attack_type`
(src/server/ml/ddqn/detector.py lines 372-399). -/
def estimateAttackType (f : Features) : String :=
  if 0.6 < f.synFrac then "TCP SYN Flood"
  else if f.protocolImbal < 0.3 ∧ 0.7 < f.packetRate then "UDP Flood"
  else if f.destinationEntropy < 0.2 ∧ 0.6 < f.packetRate then "ICMP Flood"
  else if 0.7 < f.trafficVol ∧ 0.6 < f.uniqueSrcCount then "Distributed Flood"
  else if f.synFrac < 0.3 ∧ 0.5 < f.trafficVol then "HTTP Flood"
  else if f.packetRate < 0.4 ∧ f.trafficVol < 0.4 then "Slowloris"
  else "Unknown Attack"

/-- One entry of `self.attack_history`: the dictionary appended on episode
start (detector.py lines 297-303), later mutated in place while the episode
is open.  Keys that are added only later (`last_detection`, `end_time`,
`duration`) are `Option`s that start out `none`. -/
structure Episode where
  startTime : ℚ
  attackType : String
  confidence : ℚ
  severity : ℚ
  lastDetection : Option ℚ
  endTime : Option ℚ
  duration : Option ℚ
  deriving DecidableEq

/-- The episode-tracking state of `DDQNDetector`
(fields set in `__init__` / `reset`): `attack_in_progress`,
`last_attack_time`, `last_attack_type`, `current_attack_severity`,
`attack_history`. -/
structure DetState where
  attackInProgress : Bool
  lastAttackTime : Option ℚ
  lastAttackType : Option String
  currentAttackSeverity : ℚ
  attackHistory : List Episode
  deriving DecidableEq

/-- The state of a freshly constructed (or `reset`) detector. -/
def initDetState : DetState :=
  { attackInProgress := false
    lastAttackTime := none
    lastAttackType := none
    currentAttackSeverity := 0
    attackHistory := [] }

/-- Apply a function to the last element of a list, if any.  This models
the in-place mutation of `self.attack_history[-1]`. -/
def updateLast {α : Type} : List α → (α → α) → List α
  | [], _ => []
  | [e], f => [f e]
  | e :: e2 :: es, f => e :: updateLast (e2 :: es) f

/-- The attack-episode update performed by `DDQNDetector.detect`
(src/server/ml/ddqn/detector.py lines 283-331).
The detection outcome `isAtk` (`action == 1`), the confidence, the last
window's feature vector and the current time are computed earlier in
`detect` and enter here as inputs.

* positive detection, no open episode: open one, record `start_time`,
  estimated type and severity; `current_attack_severity` is NOT written;
* positive detection, open episode: update the last history entry with
  `last_detection = now`, confidence and severity running maxima, set
  `current_attack_severity` to the raw new estimate, then
  `last_attack_time = now` (detector.py line 316);
* negative detection, open episode: close it only when
  `now - last_attack_time > 30`, recording `end_time` and
  `duration = now - start_time`.

The near-duplicate `DDoSDetector.detect`
(src/server/network/analysis/ddos_detector.py lines 266-308) differs in
one point: it has no counterpart of line 316, i.e. it never refreshes
`last_attack_time` on further positive detections; see
`updateAttackStateDDoS` below. -/
def updateAttackState (st : DetState) (isAtk : Bool) (conf : ℚ)
    (f : Features) (now : ℚ) : DetState :=
  if isAtk then
    if st.attackInProgress then
      let st1 :=
        if st.attackHistory ≠ [] then
          { st with
            currentAttackSeverity := estimateAttackSeverity f
            attackHistory := updateLast st.attackHistory (fun ep =>
              { ep with
                lastDetection := some now
                confidence := max ep.confidence conf
                severity := max ep.severity (estimateAttackSeverity f) }) }
        else st
      { st1 with lastAttackTime := some now }
    else
      { st with
        attackInProgress := true
        lastAttackTime := some now
        lastAttackType := some (estimateAttackType f)
        attackHistory := st.attackHistory ++
          [{ startTime := now
             attackType := estimateAttackType f
             confidence := conf
             severity := estimateAttackSeverity f
             lastDetection := none
             endTime := none
             duration := none }] }
  else
    if st.attackInProgress then
      match st.lastAttackTime with
      | some t =>
        if 30 < now - t then
          { st with
            attackInProgress := false
            attackHistory := updateLast st.attackHistory (fun ep =>
              { ep with
                endTime := some now
                duration := some (now - ep.startTime) }) }
        else st
      | none => st
    else st

/-- The attack-episode update performed by `DDoSDetector.detect`
(src/server/network/analysis/ddos_detector.py lines 266-308).  It
matches `updateAttackState` except in the positive-detection,
open-episode branch: `last_attack_time` is assigned only when an
episode starts (ddos_detector.py line 271) and is never refreshed on
further positive detections, so the 30 s grace period of the closing
branch runs from the episode's start, not from the last positive
detection. -/
def updateAttackStateDDoS (st : DetState) (isAtk : Bool) (conf : ℚ)
    (f : Features) (now : ℚ) : DetState :=
  if isAtk then
    if st.attackInProgress then
      if st.attackHistory ≠ [] then
        { st with
          currentAttackSeverity := estimateAttackSeverity f
          attackHistory := updateLast st.attackHistory (fun ep =>
            { ep with
              lastDetection := some now
              confidence := max ep.confidence conf
              severity := max ep.severity (estimateAttackSeverity f) }) }
      else st
    else
      { st with
        attackInProgress := true
        lastAttackTime := some now
        lastAttackType := some (estimateAttackType f)
        attackHistory := st.attackHistory ++
          [{ startTime := now
             attackType := estimateAttackType f
             confidence := conf
             severity := estimateAttackSeverity f
             lastDetection := none
             endTime := none
             duration := none }] }
  else
    if st.attackInProgress then
      match st.lastAttackTime with
      | some t =>
        if 30 < now - t then
          { st with
            attackInProgress := false
            attackHistory := updateLast st.attackHistory (fun ep =>
              { ep with
                endTime := some now
                duration := some (now - ep.startTime) }) }
        else st
      | none => st
    else st

/-- A transition tuple `(state, action, reward, next_state, done)` as
stored in the replay memory by `DDQNAgent.remember` /
`DDQNAgent.memorize`. -/
structure Transition where
  state : List ℚ
  takenAction : Nat
  reward : ℚ
  nextState : List ℚ
  done : Bool
  deriving DecidableEq

/-- One append to the replay memory, `self.memory.append(transition)`
where `self.memory = deque(maxlen=cap)`
(src/server/analysis/ddqn.py line 58, src/server/ml/ddqn/ddqn_model.py
line 232): appending to a full deque evicts the leftmost (oldest)
element. -/
def pushBuf (cap : Nat) (buf : List Transition) (t : Transition) :
    List Transition :=
  if buf.length < cap then buf ++ [t] else buf.drop 1 ++ [t]

/-- Push a whole sequence of transitions into an initially empty replay
memory of capacity `cap`. -/
def pushAll (cap : Nat) (ts : List Transition) : List Transition :=
  ts.foldl (pushBuf cap) []

/-- Maximum of a list of q-values (`np.amax` / `max`); 0 for the empty
list, which never arises since `action_size ≥ 1`. -/
def listMax : List ℚ → ℚ
  | [] => 0
  | [x] => x
  | x :: y :: xs => max x (listMax (y :: xs))

/-- Index of the first occurrence of the maximal element (`np.argmax`). -/
def listArgmax (l : List ℚ) : Nat :=
  l.indexOf (listMax l)

/-- The training target computed for one sampled transition by
`DDQNAgent.replay` in src/server/analysis/ddqn.py (lines 168-175):
`target = reward` when done, otherwise
`reward + gamma * target_model.predict(next_state)[argmax policy_model.predict(next_state)]`.
The two network predictions at `next_state` enter as the q-value lists
`policyNext` and `targetNext`. -/
def ddqnReplayTarget (gamma reward : ℚ) (done : Bool)
    (policyNext targetNext : List ℚ) : ℚ :=
  if done then reward
  else reward + gamma * targetNext.getD (listArgmax policyNext) 0

/-- The training target computed for one sampled transition by
`DDQNAgent.replay` in src/server/ml/ddqn/ddqn_model.py (lines 334-341):
`target[0][action] = reward` when done, otherwise
`reward + gamma * np.amax(target_model.predict(next_state)[0])`.
Note that the policy network's prediction at `next_state` is not used at
all. -/
def ddqnModelReplayTarget (gamma reward : ℚ) (done : Bool)
    (targetNext : List ℚ) : ℚ :=
  if done then reward else reward + gamma * listMax targetNext

/-- One application of the epsilon decay at the end of
`DDQNAgent.replay` (src/server/analysis/ddqn.py lines 183-185):
`if self.epsilon > self.epsilon_min: self.epsilon *= self.epsilon_decay`. -/
def epsStep (epsMin epsDecay eps : ℚ) : ℚ :=
  if epsMin < eps then eps * epsDecay else eps

/-- The scalar state of `DDQNAgent` (src/server/analysis/ddqn.py
`__init__`, lines 44-83) that the epsilon schedule and the replay-memory
claims depend on.  The neural networks are not part of this state. -/
structure AgentState where
  gamma : ℚ
  epsilon : ℚ
  epsilonMin : ℚ
  epsilonDecay : ℚ
  memory : List Transition
  stepCounter : Nat
  updateRate : Nat
  deriving DecidableEq

/-- Method `DDQNAgent.act` (src/server/analysis/ddqn.py lines 134-150), as a
state transformer.  The random draw `np.random.rand()` and the chosen
random action, as well as the policy network's q-values at the weighted
state, enter as inputs.  The method reads `self.epsilon` but assigns no
attribute of `self`, so the agent state is returned unchanged. -/
def agentAct (a : AgentState) (randDraw : ℚ) (randomAction : Nat)
    (policyQ : List ℚ) : Nat × AgentState :=
  (if randDraw ≤ a.epsilon then randomAction else listArgmax policyQ, a)

/-- The effect of one `DDQNAgent.replay(batch_size)` call
(src/server/analysis/ddqn.py lines 152-192) on the agent's scalar state:
an early return (no decay, no step count) when the memory holds fewer
than `batch_size` transitions, otherwise the guarded epsilon decay and
the step-counter increment.  Network fitting and the periodic target
sync touch only the networks and are not modelled. -/
def replayEpsilon (a : AgentState) (batchSize : Nat) : AgentState :=
  if a.memory.length < batchSize then a
  else
    { a with
      epsilon := epsStep a.epsilonMin a.epsilonDecay a.epsilon
      stepCounter := a.stepCounter + 1 }

/-- Iterate `n` successive `replay(batchSize)` calls. -/
def replayN (batchSize : Nat) : Nat → AgentState → AgentState
  | 0, a => a
  | n + 1, a => replayEpsilon (replayN batchSize n a) batchSize

/-- The recommendation returned by `recommend_action`
(src/server/ml/ddqn/detector.py lines 558-635): the `action`,
`severity` label, optional `target` and optional `duration` keys of the
returned dictionary.  The free-text `description` value is not
modelled. -/
structure RecAction where
  action : String
  severityLabel : String
  target : Option String
  duration : Option Nat
  deriving DecidableEq

/-- Method `DDQNDetector.recommend_action` (src/server/ml/ddqn/detector.py
lines 558-635; identical in src/server/network/analysis/ddos_detector.py
lines 389-466).  Its inputs are the fields of the detection result that
the decision reads: `is_attack`, `attack_in_progress`, the open
episode's severity (`current_attack["severity"]`, defaulting to 0 when
absent) and the raw `confidence`. -/
def recommendAction (isAtk inProgress : Bool) (sev conf : ℚ) : RecAction :=
  if ¬ isAtk ∧ ¬ inProgress then
    { action := "monitor", severityLabel := "low",
      target := none, duration := none }
  else if inProgress then
    if 0.8 < sev then
      { action := "block", severityLabel := "critical",
        target := some "source", duration := some 3600 }
    else if 0.6 < sev then
      { action := "throttle", severityLabel := "high",
        target := some "specific_sources", duration := some 1800 }
    else if 0.4 < sev then
      { action := "analyze", severityLabel := "medium",
        target := some "traffic_patterns", duration := some 900 }
    else
      { action := "monitor", severityLabel := "low",
        target := none, duration := some 300 }
  else if 0.8 < conf then
    { action := "throttle", severityLabel := "high",
      target := none, duration := some 1800 }
  else if 0.6 < conf then
    { action := "analyze", severityLabel := "medium",
      target := none, duration := some 900 }
  else
    { action := "monitor", severityLabel := "low",
      target := none, duration := some 300 }

/-- Function `DDQNDetector._calculate_entropy`
(src/server/ml/ddqn/detector.py lines 196-226): the Shannon entropy
`-Σ p_i·log2(p_i)` of the value frequencies, normalized by
`log2(distinct_count)`, and 0 for an empty input or when the
normalizer is not positive.  The frequency dictionary is modelled by
`values.dedup` with `values.count`; the sum is order-insensitive, so
the dictionary's iteration order is immaterial. -/
noncomputable def calcEntropy {α : Type} [DecidableEq α]
    (values : List α) : ℝ :=
  if values = [] then 0
  else
    let n : ℝ := values.length
    let ent : ℝ := -((values.dedup.map (fun v =>
      if 0 < (values.count v : ℝ) / n then
        ((values.count v : ℝ) / n) * Real.logb 2 ((values.count v : ℝ) / n)
      else 0)).sum)
    let maxEnt : ℝ := Real.logb 2 (values.dedup.length : ℝ)
    if 0 < maxEnt then ent / maxEnt else 0

/-- The `protocol_imbalance` feature
(src/server/ml/ddqn/detector.py line 176, src/server/network/analysis/
ddos_detector.py line 162):
`_calculate_entropy(list(protocol_counts.keys()))` — the entropy of the
list of DISTINCT protocol labels, each appearing exactly once.  Python's
dict preserves first-occurrence key order while `List.dedup` keeps last
occurrences, but `calcEntropy` of a duplicate-free list depends only on
its length, so the value is unaffected. -/
noncomputable def protocolImbalance (td : List Packet) : ℝ :=
  calcEntropy (protocolLabels td).dedup

/-- The all-zero feature vector (empty-window features). -/
def feat0 : Features :=
  { sourceEntropy := 0, destinationEntropy := 0, synFrac := 0
    trafficVol := 0, packetRate := 0, uniqueSrcCount := 0
    uniqueDstCount := 0, protocolImbal := 0 }

/-- A high-severity feature vector: severity estimate
`0.4 + 0.3 + 0.15 + 0 + 0 = 0.85`. -/
def featHi : Features :=
  { sourceEntropy := 0, destinationEntropy := 1, synFrac := 1
    trafficVol := 1, packetRate := 1, uniqueSrcCount := 0
    uniqueDstCount := 0, protocolImbal := 0 }

/-- Run a sequence of `(is_attack, timestamp)` detections with constant
confidence 1/2 and constant features `feat0` through the episode
tracker. -/
def runScenario (steps : List (Bool × ℚ)) : DetState :=
  steps.foldl (fun st p => updateAttackState st p.1 (1/2) feat0 p.2)
    initDetState

/-- Run a sequence of `(is_attack, timestamp)` detections with constant
confidence 1/2 and constant features `feat0` through the
`DDoSDetector` variant of the episode tracker. -/
def runScenarioDDoS (steps : List (Bool × ℚ)) : DetState :=
  steps.foldl (fun st p => updateAttackStateDDoS st p.1 (1/2) feat0 p.2)
    initDetState

/-- Detections exposing the divergence between the two tracker
variants: positives at 0 s and 25 s, then a negative at 32 s — more
than 30 s after the episode start but only 7 s after the last positive
detection. -/
def scenarioGap : List (Bool × ℚ) :=
  [(true, 0), (true, 25), (false, 32)]

/-- Three positive detections then two negative ones, timestamps 1 s
apart. -/
def scenario1 : List (Bool × ℚ) :=
  [(true, 0), (true, 1), (true, 2), (false, 3), (false, 4)]

/-- Same as `scenario1` but with a 40 s gap before the final negative
detection. -/
def scenario2 : List (Bool × ℚ) :=
  [(true, 0), (true, 1), (true, 2), (false, 3), (false, 43)]

/-- Run a sequence of `(features, timestamp)` POSITIVE detections with
constant confidence 1/2 through the episode tracker. -/
def runPositives (steps : List (Features × ℚ)) : DetState :=
  steps.foldl (fun st p => updateAttackState st true (1/2) p.1 p.2)
    initDetState

/-- A placeholder transition. -/
def trans0 : Transition :=
  { state := [], takenAction := 0, reward := 0, nextState := [], done := false }

/-- A transition carrying an identifying reward value, used to build
pairwise distinct replay-buffer contents. -/
def transN (i : Nat) : Transition :=
  { state := [], takenAction := 0, reward := i, nextState := [], done := false }

/-- A concrete agent configuration exhibiting the epsilon undershoot:
`epsilon₀ = 1`, `epsilon_min = 2/5`, `epsilon_decay = 1/2`, with one
stored transition so that `replay(1)` trains. -/
def cexAgent : AgentState :=
  { gamma := 0.95, epsilon := 1, epsilonMin := 2/5, epsilonDecay := 1/2
    memory := [trans0], stepCounter := 0, updateRate := 100 }

/-- A one-packet traffic window totalling 1000 bytes. -/
def w1000 : List Packet :=
  [{ srcIp := "10.0.0.1", dstIp := "10.0.0.2", protocol := "TCP"
     tcpFlags := "S", packetSize := 1000 }]

/-- A one-packet traffic window totalling 2000 bytes. -/
def w2000 : List Packet :=
  [{ srcIp := "10.0.0.1", dstIp := "10.0.0.2", protocol := "TCP"
     tcpFlags := "S", packetSize := 2000 }]

/-- The `severity` value inside the `current_attack` field of the
result dictionary built by `detect` (detector.py lines 361-366;
ddos_detector.py lines 318-323): present exactly when an attack is in
progress, and equal to `current_attack_severity`. -/
def reportedSeverity (st : DetState) : Option ℚ :=
  if st.attackInProgress then some st.currentAttackSeverity else none

/-- The open episode of `stW`, as recorded after three positive
detections of `feat0`-shaped traffic at times 0, 1 and 2. -/
def epW : Episode :=
  { startTime := 0, attackType := "Slowloris", confidence := 1/2
    severity := 1/20, lastDetection := some 2, endTime := none
    duration := none }

/-- A detector state with an open episode whose last positive detection
was at time 2. -/
def stW : DetState :=
  { attackInProgress := true, lastAttackTime := some 2
    lastAttackType := some "Slowloris", currentAttackSeverity := 1/20
    attackHistory := [epW] }

/-- A two-packet window carrying two distinct protocol labels. -/
def wMulti : List Packet :=
  [{ srcIp := "10.0.0.1", dstIp := "10.0.0.2", protocol := "TCP"
     tcpFlags := "S", packetSize := 100 },
   { srcIp := "10.0.0.3", dstIp := "10.0.0.2", protocol := "UDP"
     tcpFlags := "", packetSize := 700 }]

lemma replayEpsilon_fields (a : AgentState) (b : Nat) :
    (replayEpsilon a b).epsilonMin = a.epsilonMin ∧
    (replayEpsilon a b).epsilonDecay = a.epsilonDecay ∧
    (replayEpsilon a b).memory = a.memory := by
  unfold replayEpsilon
  split <;> exact ⟨rfl, rfl, rfl⟩

lemma replayN_fields (b : Nat) (a : AgentState) (n : Nat) :
    (replayN b n a).epsilonMin = a.epsilonMin ∧
    (replayN b n a).epsilonDecay = a.epsilonDecay ∧
    (replayN b n a).memory = a.memory := by
  induction n with
  | zero => exact ⟨rfl, rfl, rfl⟩
  | succ n ih =>
    obtain ⟨h1, h2, h3⟩ := replayEpsilon_fields (replayN b n a) b
    exact ⟨h1.trans ih.1, h2.trans ih.2.1, h3.trans ih.2.2⟩

lemma replayN_epsilon_step (b : Nat) (a : AgentState)
    (hb : b ≤ a.memory.length) (n : Nat) :
    (replayN b (n + 1) a).epsilon =
      epsStep a.epsilonMin a.epsilonDecay (replayN b n a).epsilon := by
  obtain ⟨hmin, hdec, hmem⟩ := replayN_fields b a n
  show (replayEpsilon (replayN b n a) b).epsilon = _
  unfold replayEpsilon
  rw [if_neg (by rw [hmem]; omega)]
  simp [hmin, hdec]

/-- C2 (amended): starting from `epsilon₀`, the epsilon after `n`
training steps equals `epsilon₀ · epsilon_decay^min(n, m)` where `m` is
the first step count at which the product reaches `epsilon_min` or
below; the final decay may therefore undershoot `epsilon_min` by up to
one factor of `epsilon_decay`, and epsilon never falls below
`epsilon_min · epsilon_decay`.  `act` leaves epsilon (indeed the whole
agent state) unchanged. -/
theorem c2_epsilon_schedule (a : AgentState) (b m : Nat)
    (hb : b ≤ a.memory.length) (hd : 0 < a.epsilonDecay)
    (hm1 : ∀ k, k < m → a.epsilonMin < a.epsilon * a.epsilonDecay ^ k)
    (hm2 : a.epsilon * a.epsilonDecay ^ m ≤ a.epsilonMin) :
    (∀ n, (replayN b n a).epsilon = a.epsilon * a.epsilonDecay ^ (min n m)) ∧
    (a.epsilonMin * a.epsilonDecay ≤ a.epsilon →
      ∀ n, a.epsilonMin * a.epsilonDecay ≤ (replayN b n a).epsilon) ∧
    (∀ (a2 : AgentState) (randDraw : ℚ) (randomAction : Nat)
        (policyQ : List ℚ),
      (agentAct a2 randDraw randomAction policyQ).2.epsilon = a2.epsilon) := by
  refine ⟨?_, ?_, fun _ _ _ _ => rfl⟩
  · intro n
    induction n with
    | zero => simp [replayN]
    | succ n ih =>
      rw [replayN_epsilon_step b a hb n, ih, epsStep]
      rcases lt_or_le n m with h | h
      · rw [min_eq_left h.le, min_eq_left (by omega : n + 1 ≤ m),
          if_pos (hm1 n h), pow_succ]
        ring
      · rw [min_eq_right h, min_eq_right (by omega : m ≤ n + 1),
          if_neg (not_lt.mpr hm2)]
  · intro h0 n
    induction n with
    | zero => exact h0
    | succ n ih =>
      rw [replayN_epsilon_step b a hb n, epsStep]
      split
      · rename_i hlt
        calc a.epsilonMin * a.epsilonDecay
            ≤ (replayN b n a).epsilon * a.epsilonDecay :=
              mul_le_mul_of_nonneg_right hlt.le hd.le
        _ = _ := rfl
      · exact ih

/-- Witness for `c2_epsilon_schedule` at a concrete agent. -/
theorem c2_epsilon_schedule_witness :
    (replayN 1 3 cexAgent).epsilon =
      cexAgent.epsilon * cexAgent.epsilonDecay ^ (min 3 2) :=
  (c2_epsilon_schedule cexAgent 1 2 (by norm_num [cexAgent])
    (by norm_num [cexAgent])
    (by
      intro k hk
      interval_cases k <;> norm_num [cexAgent])
    (by norm_num [cexAgent])).1 3

/-- C2 counterexample: with `epsilon₀ = 1`, `epsilon_min = 2/5`,
`epsilon_decay = 1/2` and an adequately filled memory, two training
steps leave epsilon at `1/4`, not at
`max(epsilon_min, epsilon₀ · epsilon_decay^2) = 2/5`; epsilon has gone
strictly below `epsilon_min`. -/
theorem c2_counterexample :
    (replayN 1 2 cexAgent).epsilon ≠
      max cexAgent.epsilonMin (cexAgent.epsilon * cexAgent.epsilonDecay ^ 2) ∧
    (replayN 1 2 cexAgent).epsilon < cexAgent.epsilonMin := by
  norm_num [replayN, replayEpsilon, epsStep, cexAgent, trans0, max_def]

/-- C1: at reward 0, `gamma = 0.95`, a non-terminal transition, policy
q-values `[1, 0]` and target q-values `[0, 1]` at the next state, the
`replay` of src/server/ml/ddqn/ddqn_model.py computes the vanilla-DQN
target `reward + gamma·max(target_net(next_state)) = 0.95`, whereas the
Double-Q target
`reward + gamma·target_net(next_state)[argmax policy_net(next_state)]`
(as computed by src/server/analysis/ddqn.py) equals `0`; both agree
with `target = reward` on terminal transitions. -/
theorem c1_ddqn_model_target_not_double_q :
    ddqnModelReplayTarget 0.95 0 false [0, 1] = 0 + 0.95 * listMax [0, 1] ∧
    ddqnReplayTarget 0.95 0 false [1, 0] [0, 1] =
      0 + 0.95 * ([0, 1].getD (listArgmax [1, 0]) 0) ∧
    ddqnModelReplayTarget 0.95 0 false [0, 1] ≠
      ddqnReplayTarget 0.95 0 false [1, 0] [0, 1] ∧
    ddqnModelReplayTarget 0.95 7 true [0, 1] = 7 ∧
    ddqnReplayTarget 0.95 7 true [1, 0] [0, 1] = 7 := by
  norm_num [ddqnModelReplayTarget, ddqnReplayTarget, listMax, listArgmax,
    List.indexOf, List.findIdx, List.findIdx.go]

/-- C3 (amended): for every traffic window, `traffic_volume` is the
LINEAR normalization `min(1, total_bytes/1,000,000)` (the source's
comment says logarithmic, the expression is linear), clamped to
`[0, 1]`. -/
theorem c3_traffic_volume_linear (td : List Packet) (hne : td ≠ []) :
    trafficVolume td = min 1 ((totalPacketSize td : ℚ) / 1000000) ∧
    0 ≤ trafficVolume td ∧ trafficVolume td ≤ 1 := by
  unfold trafficVolume
  rcases Nat.eq_zero_or_pos (totalPacketSize td) with h0 | h0
  · rw [if_neg (by omega), h0]
    norm_num
  · rw [if_pos h0]
    refine ⟨rfl, le_min (by norm_num) (by positivity), min_le_left _ _⟩

/-- Witness for `c3_traffic_volume_linear` at a concrete window. -/
theorem c3_traffic_volume_linear_witness :
    w1000 ≠ [] ∧
    trafficVolume w1000 = min 1 ((totalPacketSize w1000 : ℚ) / 1000000) :=
  ⟨by simp [w1000], (c3_traffic_volume_linear w1000 (by simp [w1000])).1⟩

/-- C3 counterexample: no fixed constant `K` makes `traffic_volume`
equal to `min(1, log(total_bytes + 1)/K)` on all non-empty windows: the
windows `w1000` and `w2000` (1000 and 2000 total bytes, traffic volumes
`1/1000` and `1/500`) would force `log 2001 = 2·log 1001`, i.e.
`2001 = 1001²`. -/
theorem c3_counterexample :
    ¬ ∃ K : ℝ, ∀ td : List Packet, td ≠ [] →
      ((trafficVolume td : ℝ) =
        min 1 (Real.log ((totalPacketSize td : ℝ) + 1) / K)) := by
  rintro ⟨K, hK⟩
  have e1 : trafficVolume w1000 = 1 / 1000 := by
    norm_num [trafficVolume, totalPacketSize, w1000]
  have e2 : trafficVolume w2000 = 1 / 500 := by
    norm_num [trafficVolume, totalPacketSize, w2000]
  have t1 : (totalPacketSize w1000 : ℝ) = 1000 := by
    norm_num [totalPacketSize, w1000]
  have t2 : (totalPacketSize w2000 : ℝ) = 2000 := by
    norm_num [totalPacketSize, w2000]
  have h1 := hK w1000 (by simp [w1000])
  have h2 := hK w2000 (by simp [w2000])
  rw [e1, t1] at h1
  rw [e2, t2] at h2
  push_cast at h1 h2
  norm_num at h1 h2
  have m1 : Real.log 1001 / K = 1 / 1000 := by
    rcases min_cases (1 : ℝ) (Real.log 1001 / K) with ⟨hmin, _⟩ | ⟨hmin, _⟩
    · rw [hmin] at h1
      norm_num at h1
    · rw [hmin] at h1
      exact h1.symm
  have m2 : Real.log 2001 / K = 1 / 500 := by
    rcases min_cases (1 : ℝ) (Real.log 2001 / K) with ⟨hmin, _⟩ | ⟨hmin, _⟩
    · rw [hmin] at h2
      norm_num at h2
    · rw [hmin] at h2
      exact h2.symm
  have hK0 : K ≠ 0 := by
    intro h
    rw [h, div_zero] at m1
    norm_num at m1
  have hlog : Real.log 2001 = 2 * Real.log 1001 := by
    field_simp at m1 m2
    linarith
  have hpow : Real.log 2001 = Real.log (1001 ^ 2) := by
    rw [Real.log_pow]
    push_cast
    linarith
  have hlt : Real.log 2001 < Real.log (1001 ^ 2) :=
    Real.log_lt_log (by norm_num) (by norm_num)
  rw [hpow] at hlt
  exact lt_irrefl _ hlt

lemma pushAll_concat (cap : Nat) (ts : List Transition) (t : Transition) :
    pushAll cap (ts ++ [t]) = pushBuf cap (pushAll cap ts) t := by
  simp [pushAll, List.foldl_append]

lemma pushAll_eq_drop (cap : Nat) (hc : 0 < cap) (ts : List Transition) :
    pushAll cap ts = ts.drop (ts.length - cap) := by
  induction ts using List.reverseRecOn with
  | nil => simp [pushAll]
  | append_singleton ts t ih =>
    rw [pushAll_concat, ih]
    rcases lt_or_le ts.length cap with h | h
    · have h1 : ts.length - cap = 0 := by omega
      have h2 : (ts ++ [t]).length - cap = 0 := by
        rw [List.length_append]
        simp only [List.length_singleton]
        omega
      rw [h1, List.drop_zero, h2, List.drop_zero, pushBuf, if_pos h]
    · have hlen : (ts.drop (ts.length - cap)).length = cap := by
        rw [List.length_drop]
        omega
      rw [pushBuf, if_neg (by rw [hlen]; exact lt_irrefl cap),
        List.drop_drop, List.length_append]
      simp only [List.length_singleton]
      rw [List.drop_append_of_le_length (by omega)]
      congr 2
      omega

/-- C6: the replay memory `deque(maxlen=cap)` never exceeds its
capacity; a push into a full buffer evicts exactly the oldest entry;
and pushing `cap + 5` transitions into an empty buffer leaves exactly
the last `cap` of them, in insertion order, with the 5 oldest absent
whenever the pushed transitions are pairwise distinct. -/
theorem c6_replay_buffer_fifo (cap : Nat) (hc : 0 < cap)
    (L : List Transition) :
    (pushAll cap L).length ≤ cap ∧
    (∀ (buf : List Transition) (t : Transition), buf.length = cap →
      pushBuf cap buf t = buf.drop 1 ++ [t]) ∧
    (L.length = cap + 5 →
      pushAll cap L = L.drop 5 ∧
      (L.Nodup → ∀ t ∈ L.take 5, t ∉ pushAll cap L)) := by
  refine ⟨?_, ?_, ?_⟩
  · rw [pushAll_eq_drop cap hc, List.length_drop]
    omega
  · intro buf t hlen
    rw [pushBuf, if_neg (by rw [hlen]; exact lt_irrefl cap)]
  · intro hL
    have hdrop : pushAll cap L = L.drop 5 := by
      rw [pushAll_eq_drop cap hc, hL]
      congr 1
      omega
    refine ⟨hdrop, fun hnd t ht => ?_⟩
    rw [hdrop]
    exact List.disjoint_take_drop hnd (le_refl 5) ht

/-- Witness for `c6_replay_buffer_fifo`: capacity 2, seven pairwise
distinct transitions. -/
theorem c6_replay_buffer_fifo_witness :
    pushAll 2 ((List.range 7).map transN) =
      ((List.range 7).map transN).drop 5 :=
  ((c6_replay_buffer_fifo 2 (by norm_num) ((List.range 7).map transN)).2.2
    (by simp)).1

/-- C7: the attack-severity estimate is the stated weighted linear
combination clamped to `[0, 1]`, and for any feature vector with all
eight entries in `[0, 1]` the result lies in `[0, 1]`. -/
theorem c7_severity_weighted_clamped (f : Features)
    (h1a : 0 ≤ f.sourceEntropy) (h1b : f.sourceEntropy ≤ 1)
    (h2a : 0 ≤ f.destinationEntropy) (h2b : f.destinationEntropy ≤ 1)
    (h3a : 0 ≤ f.synFrac) (h3b : f.synFrac ≤ 1)
    (h4a : 0 ≤ f.trafficVol) (h4b : f.trafficVol ≤ 1)
    (h5a : 0 ≤ f.packetRate) (h5b : f.packetRate ≤ 1)
    (h6a : 0 ≤ f.uniqueSrcCount) (h6b : f.uniqueSrcCount ≤ 1)
    (h7a : 0 ≤ f.uniqueDstCount) (h7b : f.uniqueDstCount ≤ 1)
    (h8a : 0 ≤ f.protocolImbal) (h8b : f.protocolImbal ≤ 1) :
    estimateAttackSeverity f =
      min 1 (0.4 * f.trafficVol + 0.3 * f.packetRate + 0.15 * f.synFrac
        + 0.1 * f.sourceEntropy + 0.05 * (1 - f.destinationEntropy)) ∧
    0 ≤ estimateAttackSeverity f ∧ estimateAttackSeverity f ≤ 1 := by
  have hsum : 0 + f.trafficVol * 0.4 + f.packetRate * 0.3 + f.synFrac * 0.15
      + f.sourceEntropy * 0.1 + (1 - f.destinationEntropy) * 0.05
      = 0.4 * f.trafficVol + 0.3 * f.packetRate + 0.15 * f.synFrac
        + 0.1 * f.sourceEntropy + 0.05 * (1 - f.destinationEntropy) := by
    ring
  refine ⟨by rw [estimateAttackSeverity, hsum], ?_, ?_⟩
  · rw [estimateAttackSeverity]
    exact le_min (by norm_num) (by nlinarith)
  · exact min_le_left _ _

/-- Witness for `c7_severity_weighted_clamped` at the all-zero feature
vector. -/
theorem c7_severity_weighted_clamped_witness :
    0 ≤ estimateAttackSeverity feat0 ∧ estimateAttackSeverity feat0 ≤ 1 :=
  (c7_severity_weighted_clamped feat0 (by norm_num [feat0])
    (by norm_num [feat0]) (by norm_num [feat0]) (by norm_num [feat0])
    (by norm_num [feat0]) (by norm_num [feat0]) (by norm_num [feat0])
    (by norm_num [feat0]) (by norm_num [feat0]) (by norm_num [feat0])
    (by norm_num [feat0]) (by norm_num [feat0]) (by norm_num [feat0])
    (by norm_num [feat0]) (by norm_num [feat0]) (by norm_num [feat0])).2

/-- C8: `recommend_action` is a pure decision table: no attack and no
open episode yields monitor/low with no duration; with an open episode
the severity thresholds 0.8/0.6/0.4 select block (3600 s), throttle
(1800 s), analyze (900 s) and monitor (300 s); with a new detection and
no open episode the confidence thresholds 0.8/0.6 select throttle
(1800 s), analyze (900 s) and monitor (300 s). -/
theorem c8_recommendation_table (isAtk inProg : Bool) (sev conf : ℚ) :
    (isAtk = false → inProg = false →
      recommendAction isAtk inProg sev conf =
        { action := "monitor", severityLabel := "low",
          target := none, duration := none }) ∧
    (inProg = true → 0.8 < sev →
      recommendAction isAtk inProg sev conf =
        { action := "block", severityLabel := "critical",
          target := some "source", duration := some 3600 }) ∧
    (inProg = true → 0.6 < sev → sev ≤ 0.8 →
      recommendAction isAtk inProg sev conf =
        { action := "throttle", severityLabel := "high",
          target := some "specific_sources", duration := some 1800 }) ∧
    (inProg = true → 0.4 < sev → sev ≤ 0.6 →
      recommendAction isAtk inProg sev conf =
        { action := "analyze", severityLabel := "medium",
          target := some "traffic_patterns", duration := some 900 }) ∧
    (inProg = true → sev ≤ 0.4 →
      recommendAction isAtk inProg sev conf =
        { action := "monitor", severityLabel := "low",
          target := none, duration := some 300 }) ∧
    (isAtk = true → inProg = false → 0.8 < conf →
      recommendAction isAtk inProg sev conf =
        { action := "throttle", severityLabel := "high",
          target := none, duration := some 1800 }) ∧
    (isAtk = true → inProg = false → 0.6 < conf → conf ≤ 0.8 →
      recommendAction isAtk inProg sev conf =
        { action := "analyze", severityLabel := "medium",
          target := none, duration := some 900 }) ∧
    (isAtk = true → inProg = false → conf ≤ 0.6 →
      recommendAction isAtk inProg sev conf =
        { action := "monitor", severityLabel := "low",
          target := none, duration := some 300 }) := by
  refine ⟨?_, ?_, ?_, ?_, ?_, ?_, ?_, ?_⟩
  · rintro rfl rfl
    simp [recommendAction]
  · rintro rfl hs
    simp [recommendAction, hs]
  · rintro rfl hs hs2
    simp [recommendAction, hs, not_lt.mpr hs2]
  · rintro rfl hs hs2
    have h8 : ¬ (0.8 < sev) := not_lt.mpr (by linarith)
    simp [recommendAction, hs, not_lt.mpr hs2, h8]
  · rintro rfl hs
    have h8 : ¬ (0.8 < sev) := not_lt.mpr (by linarith)
    have h6 : ¬ (0.6 < sev) := not_lt.mpr (by linarith)
    simp [recommendAction, not_lt.mpr hs, h8, h6]
  · rintro rfl rfl hc
    simp [recommendAction, hc]
  · rintro rfl rfl hc hc2
    simp [recommendAction, hc, not_lt.mpr hc2]
  · rintro rfl rfl hc
    have h8 : ¬ (0.8 < conf) := not_lt.mpr (by linarith)
    simp [recommendAction, not_lt.mpr hc, h8]

/-- Witness for `c8_recommendation_table`: an open episode of severity
1 yields the block recommendation. -/
theorem c8_recommendation_table_witness :
    recommendAction true true 1 0 =
      { action := "block", severityLabel := "critical",
        target := some "source", duration := some 3600 } :=
  (c8_recommendation_table true true 1 0).2.1 rfl (by norm_num)

lemma updateLast_concat {α : Type} (h : List α) (ep : α) (f : α → α) :
    updateLast (h ++ [ep]) f = h ++ [f ep] := by
  induction h with
  | nil => rfl
  | cons x xs ih =>
    cases xs with
    | nil => rfl
    | cons y ys =>
      simp only [List.cons_append, updateLast] at ih ⊢
      exact congrArg (List.cons x) ih

/-- C4 (amended): in both cited tracker variants an open episode
closes exactly on a negative detection more than 30 s after
`last_attack_time`, with `end_time = now` and
`duration = now - start_time`, and positive detections never close it.
In `DDQNDetector` (detector.py) `last_attack_time` is refreshed on
every further positive detection, so the grace period runs from the
last positive detection; in `DDoSDetector` (ddos_detector.py) it is
never refreshed after the episode starts, so the grace period runs
from the episode start.  Both variants keep the 1 s-spacing
five-detection scenario open through all five detections and close the
40 s-gap scenario with duration 43 s. -/
theorem c4_episode_close_grace_period :
    (∀ (st : DetState) (conf : ℚ) (f : Features) (now t : ℚ)
        (h : List Episode) (ep : Episode),
      st.attackInProgress = true → st.lastAttackTime = some t →
      st.attackHistory = h ++ [ep] →
      ((updateAttackState st true conf f now).attackInProgress = true) ∧
      ((updateAttackState st true conf f now).lastAttackTime = some now) ∧
      (¬ 30 < now - t → updateAttackState st false conf f now = st) ∧
      (30 < now - t →
        (updateAttackState st false conf f now).attackInProgress = false ∧
        (updateAttackState st false conf f now).attackHistory =
          h ++ [{ ep with endTime := some now,
                          duration := some (now - ep.startTime) }])) ∧
    (∀ (st : DetState) (conf : ℚ) (f : Features) (now t : ℚ)
        (h : List Episode) (ep : Episode),
      st.attackInProgress = true → st.lastAttackTime = some t →
      st.attackHistory = h ++ [ep] →
      ((updateAttackStateDDoS st true conf f now).attackInProgress = true) ∧
      ((updateAttackStateDDoS st true conf f now).lastAttackTime = some t) ∧
      (¬ 30 < now - t → updateAttackStateDDoS st false conf f now = st) ∧
      (30 < now - t →
        (updateAttackStateDDoS st false conf f now).attackInProgress
          = false ∧
        (updateAttackStateDDoS st false conf f now).attackHistory =
          h ++ [{ ep with endTime := some now,
                          duration := some (now - ep.startTime) }])) ∧
    (runScenario scenario1).attackInProgress = true ∧
    (runScenario scenario2).attackInProgress = false ∧
    (runScenario scenario2).attackHistory =
      [{ startTime := 0, attackType := "Slowloris", confidence := 1/2,
         severity := 1/20, lastDetection := some 2, endTime := some 43,
         duration := some 43 }] ∧
    (runScenarioDDoS scenario1).attackInProgress = true ∧
    (runScenarioDDoS scenario2).attackInProgress = false ∧
    (runScenarioDDoS scenario2).attackHistory =
      [{ startTime := 0, attackType := "Slowloris", confidence := 1/2,
         severity := 1/20, lastDetection := some 2, endTime := some 43,
         duration := some 43 }] := by
  refine ⟨?_, ?_, ?_, ?_, ?_, ?_, ?_, ?_⟩
  · intro st conf f now t h ep hp hl hh
    have hne : st.attackHistory ≠ [] := by
      rw [hh]
      simp
    refine ⟨?_, ?_, ?_, ?_⟩
    · simp [updateAttackState, hp, hne]
    · simp [updateAttackState, hp, hne]
    · intro hgrace
      simp [updateAttackState, hp, hl, hgrace]
    · intro hgrace
      simp only [updateAttackState, hp, hl, if_true]
      simp only [Bool.false_eq_true, if_false]
      rw [if_pos hgrace]
      exact ⟨rfl, by rw [hh, updateLast_concat]⟩
  · intro st conf f now t h ep hp hl hh
    have hne : st.attackHistory ≠ [] := by
      rw [hh]
      simp
    refine ⟨?_, ?_, ?_, ?_⟩
    · simp [updateAttackStateDDoS, hp, hne]
    · simp [updateAttackStateDDoS, hp, hne, hl]
    · intro hgrace
      simp [updateAttackStateDDoS, hp, hl, hgrace]
    · intro hgrace
      simp only [updateAttackStateDDoS, hp, hl, if_true]
      simp only [Bool.false_eq_true, if_false]
      rw [if_pos hgrace]
      exact ⟨rfl, by rw [hh, updateLast_concat]⟩
  · norm_num [runScenario, scenario1, updateAttackState, initDetState,
      estimateAttackSeverity, estimateAttackType, feat0, updateLast]
  · norm_num [runScenario, scenario2, updateAttackState, initDetState,
      estimateAttackSeverity, estimateAttackType, feat0, updateLast]
  · norm_num [runScenario, scenario2, updateAttackState, initDetState,
      estimateAttackSeverity, estimateAttackType, feat0, updateLast]
  · norm_num [runScenarioDDoS, scenario1, updateAttackStateDDoS,
      initDetState, estimateAttackSeverity, estimateAttackType, feat0,
      updateLast]
  · norm_num [runScenarioDDoS, scenario2, updateAttackStateDDoS,
      initDetState, estimateAttackSeverity, estimateAttackType, feat0,
      updateLast]
  · norm_num [runScenarioDDoS, scenario2, updateAttackStateDDoS,
      initDetState, estimateAttackSeverity, estimateAttackType, feat0,
      updateLast]

/-- Witness for `c4_episode_close_grace_period` at the concrete open
state `stW` and a negative detection 41 s after the last positive
one. -/
theorem c4_episode_close_grace_period_witness :
    (updateAttackState stW false (1/2) feat0 43).attackInProgress = false ∧
    (updateAttackState stW false (1/2) feat0 43).attackHistory =
      [{ epW with endTime := some 43, duration := some (43 - epW.startTime) }] :=
  (c4_episode_close_grace_period.1 stW (1/2) feat0 43 2 [] epW rfl rfl
    rfl).2.2.2 (by norm_num)

/-- C4 counterexample: on positive detections at 0 s and 25 s followed
by a negative one at 32 s — 7 s after the last positive detection —
`DDoSDetector.detect` closes the episode, because its
`last_attack_time` still holds the episode start 0 and `32 - 0 > 30`;
the claim demands the episode stay open until more than 30 s have
passed since the last positive detection, as `DDQNDetector.detect`
indeed does on the same input. -/
theorem c4_counterexample :
    (runScenarioDDoS scenarioGap).attackInProgress = false ∧
    (runScenario scenarioGap).attackInProgress = true ∧
    ((32 : ℚ) - 25 ≤ 30) := by
  norm_num [runScenarioDDoS, runScenario, scenarioGap, updateAttackStateDDoS,
    updateAttackState, initDetState, estimateAttackSeverity,
    estimateAttackType, feat0, updateLast]

/-- C5 (amended): while an episode is open, every further positive
detection updates `last_attack_time` and raises the recorded episode's
confidence and severity to their running maxima (hence they never
decrease), but `current_attack_severity` — the severity reported in the
result's `current_attack` field — is overwritten with the raw new
estimate, so the reported value may decrease. -/
theorem c5_running_max_update (st : DetState) (conf : ℚ) (f : Features)
    (now : ℚ) (h : List Episode) (ep : Episode)
    (hp : st.attackInProgress = true)
    (hh : st.attackHistory = h ++ [ep]) :
    (updateAttackState st true conf f now).lastAttackTime = some now ∧
    (updateAttackState st true conf f now).attackInProgress = true ∧
    (updateAttackState st true conf f now).attackHistory =
      h ++ [{ ep with lastDetection := some now,
                      confidence := max ep.confidence conf,
                      severity := max ep.severity (estimateAttackSeverity f) }] ∧
    ep.confidence ≤ max ep.confidence conf ∧
    ep.severity ≤ max ep.severity (estimateAttackSeverity f) ∧
    (updateAttackState st true conf f now).currentAttackSeverity =
      estimateAttackSeverity f := by
  have hne : st.attackHistory ≠ [] := by
    rw [hh]
    simp
  refine ⟨?_, ?_, ?_, le_max_left _ _, le_max_left _ _, ?_⟩ <;>
    simp [updateAttackState, hp, hne, hh, updateLast_concat]

/-- Witness for `c5_running_max_update` at the concrete open state
`stW`. -/
theorem c5_running_max_update_witness :
    (updateAttackState stW true (1/2) featHi 3).lastAttackTime = some 3 ∧
    (updateAttackState stW true (1/2) featHi 3).currentAttackSeverity =
      estimateAttackSeverity featHi :=
  ⟨(c5_running_max_update stW (1/2) featHi 3 [] epW rfl rfl).1,
   (c5_running_max_update stW (1/2) featHi 3 [] epW rfl rfl).2.2.2.2.2⟩

/-- C5 counterexample: an open episode updated by positive detections
with severity estimates 17/20, 17/20, 1/20 stays open throughout, yet
the severity reported in the result's `current_attack` field drops from
17/20 to 1/20 between the second and the third positive detection. -/
theorem c5_counterexample :
    (runPositives [(featHi, 0), (featHi, 1)]).attackInProgress = true ∧
    reportedSeverity (runPositives [(featHi, 0), (featHi, 1)]) =
      some (17/20) ∧
    (runPositives [(featHi, 0), (featHi, 1), (feat0, 2)]).attackInProgress
      = true ∧
    reportedSeverity (runPositives [(featHi, 0), (featHi, 1), (feat0, 2)]) =
      some (1/20) ∧
    (1/20 : ℚ) < 17/20 := by
  norm_num [runPositives, updateAttackState, initDetState, reportedSeverity,
    estimateAttackSeverity, estimateAttackType, featHi, feat0, updateLast]

lemma calcEntropy_nil {α : Type} [DecidableEq α] :
    calcEntropy ([] : List α) = 0 := by
  simp [calcEntropy]

lemma calcEntropy_single {α : Type} [DecidableEq α] (l : List α)
    (hne : l ≠ []) (h1 : l.dedup.length = 1) : calcEntropy l = 0 := by
  simp only [calcEntropy]
  rw [if_neg hne]
  simp only [h1, Nat.cast_one, Real.logb_one]
  norm_num

lemma calcEntropy_uniform {α : Type} [DecidableEq α] (l : List α)
    (k m : ℕ) (hk : 2 ≤ k) (hm : 0 < m) (hdl : l.dedup.length = k)
    (hcnt : ∀ v ∈ l.dedup, l.count v = m) : calcEntropy l = 1 := by
  have hne : l ≠ [] := by
    intro h
    subst h
    simp at hdl
    omega
  have hlen : l.length = k * m := by
    have hsum := List.sum_map_count_dedup_eq_length l
    have hmap : l.dedup.map (fun x => l.count x) = List.replicate k m := by
      rw [List.map_congr_left hcnt, List.map_const', hdl]
    rw [hmap, List.sum_replicate, smul_eq_mul] at hsum
    omega
  have hkR : (0 : ℝ) < (k : ℝ) := by
    exact_mod_cast (by omega : 0 < k)
  have hk0 : (k : ℝ) ≠ 0 := ne_of_gt hkR
  have hmR : (0 : ℝ) < (m : ℝ) := by
    exact_mod_cast hm
  have hkinv_pos : (0 : ℝ) < ((k : ℝ))⁻¹ := by positivity
  have hterm : ∀ v ∈ l.dedup,
      (if 0 < ((l.count v : ℝ)) / (l.length : ℝ) then
        ((l.count v : ℝ) / (l.length : ℝ)) *
          Real.logb 2 ((l.count v : ℝ) / (l.length : ℝ))
      else 0) = ((k : ℝ))⁻¹ * Real.logb 2 ((k : ℝ))⁻¹ := by
    intro v hv
    have hp : ((l.count v : ℝ)) / (l.length : ℝ) = ((k : ℝ))⁻¹ := by
      rw [hcnt v hv, hlen]
      push_cast
      rw [mul_comm, ← div_div, div_self (ne_of_gt hmR), one_div]
    rw [hp, if_pos hkinv_pos]
  simp only [calcEntropy]
  rw [if_neg hne, List.map_congr_left hterm, List.map_const', hdl,
    List.sum_replicate]
  have hlogpos : 0 < Real.logb 2 (k : ℝ) :=
    Real.logb_pos (by norm_num) (by exact_mod_cast (by omega : 1 < k))
  rw [if_pos hlogpos, Real.logb_inv, nsmul_eq_mul]
  have hstep : -((k : ℝ) * (((k : ℝ))⁻¹ * -(Real.logb 2 (k : ℝ))))
      = Real.logb 2 (k : ℝ) := by
    field_simp
  rw [hstep, div_self (ne_of_gt hlogpos)]

lemma calcEntropy_formula {α : Type} [DecidableEq α] (l : List α)
    (hne : l ≠ []) (h2 : 2 ≤ l.dedup.length) :
    calcEntropy l =
      -((l.dedup.map fun v =>
          ((l.count v : ℝ) / (l.length : ℝ)) *
            Real.logb 2 ((l.count v : ℝ) / (l.length : ℝ))).sum)
        / Real.logb 2 (l.dedup.length : ℝ) := by
  have hlpos : 0 < l.length := List.length_pos.mpr hne
  have hterm : ∀ v ∈ l.dedup,
      (if 0 < ((l.count v : ℝ)) / (l.length : ℝ) then
        ((l.count v : ℝ) / (l.length : ℝ)) *
          Real.logb 2 ((l.count v : ℝ) / (l.length : ℝ))
      else 0) = ((l.count v : ℝ) / (l.length : ℝ)) *
          Real.logb 2 ((l.count v : ℝ) / (l.length : ℝ)) := by
    intro v hv
    have hcv : 0 < l.count v := List.count_pos_iff.mpr (List.mem_dedup.mp hv)
    have hpos : (0 : ℝ) < ((l.count v : ℝ)) / (l.length : ℝ) := by
      apply div_pos
      · exact_mod_cast hcv
      · exact_mod_cast hlpos
    rw [if_pos hpos]
  have hlogpos : 0 < Real.logb 2 (l.dedup.length : ℝ) :=
    Real.logb_pos (by norm_num)
      (by exact_mod_cast (by omega : 1 < l.dedup.length))
  simp only [calcEntropy]
  rw [if_neg hne, List.map_congr_left hterm, if_pos hlogpos]

/-- C9: the normalized Shannon entropy returns 0 on an empty multiset
and on any multiset with a single distinct value, returns
`(-Σ pᵢ·log2 pᵢ) / log2(distinct_count)` whenever at least two distinct
values occur, and equals 1 for any multiset uniformly distributed over
`k ≥ 2` distinct values. -/
theorem c9_entropy_normalized (α : Type) [DecidableEq α] (l : List α) :
    calcEntropy ([] : List α) = 0 ∧
    (l ≠ [] → l.dedup.length = 1 → calcEntropy l = 0) ∧
    (∀ k m : ℕ, 2 ≤ k → 0 < m → l.dedup.length = k →
      (∀ v ∈ l.dedup, l.count v = m) → calcEntropy l = 1) ∧
    (l ≠ [] → 2 ≤ l.dedup.length →
      calcEntropy l =
        -((l.dedup.map fun v =>
            ((l.count v : ℝ) / (l.length : ℝ)) *
              Real.logb 2 ((l.count v : ℝ) / (l.length : ℝ))).sum)
          / Real.logb 2 (l.dedup.length : ℝ)) :=
  ⟨calcEntropy_nil,
   calcEntropy_single l,
   fun k m hk hm hdl hcnt => calcEntropy_uniform l k m hk hm hdl hcnt,
   calcEntropy_formula l⟩

/-- Witness for `c9_entropy_normalized`: the multiset `[0, 0, 1, 1]` is
uniform over two distinct values and has entropy 1. -/
theorem c9_entropy_normalized_witness :
    calcEntropy [0, 0, 1, 1] = 1 :=
  (c9_entropy_normalized ℕ [0, 0, 1, 1]).2.2.1 2 2 (by norm_num)
    (by norm_num) (by decide) (by decide)

/-- C10: the `protocol_imbalance` feature is the normalized entropy of
the list of DISTINCT protocol labels, so it is 0 when exactly one
distinct protocol occurs and 1 whenever at least two distinct protocols
occur, independent of the protocols' frequencies. -/
theorem c10_protocol_imbalance_degenerate (td : List Packet) :
    ((protocolLabels td).dedup.length = 1 → protocolImbalance td = 0) ∧
    (2 ≤ (protocolLabels td).dedup.length → protocolImbalance td = 1) := by
  have hnd : ((protocolLabels td).dedup).Nodup := List.nodup_dedup _
  have hdd : ((protocolLabels td).dedup).dedup = (protocolLabels td).dedup :=
    List.dedup_eq_self.mpr hnd
  constructor
  · intro h1
    show calcEntropy (protocolLabels td).dedup = 0
    apply calcEntropy_single
    · intro h
      rw [h] at h1
      simp at h1
    · rw [hdd, h1]
  · intro h2
    show calcEntropy (protocolLabels td).dedup = 1
    apply calcEntropy_uniform _ ((protocolLabels td).dedup.length) 1 h2
      one_pos
    · rw [hdd]
    · intro v hv
      rw [hdd] at hv
      exact List.count_eq_one_of_mem hnd hv

/-- Witness for `c10_protocol_imbalance_degenerate` at a two-protocol
window. -/
theorem c10_protocol_imbalance_degenerate_witness :
    protocolImbalance wMulti = 1 :=
  (c10_protocol_imbalance_degenerate wMulti).2 (by decide)

end CyberDetector
